import Mathlib

/-!
Verification development for the ScanNet data-conversion core
(`tools/data_converter/scannet_data_utils.py`).

The Python source is shallowly embedded below.  Conventions of the
embedding:

* numpy integer values (`np.long` mask/class ids) become `Int`;
  numpy float64 arithmetic (sampling probabilities, label weights) is
  idealised as exact `ℚ` / `ℝ` arithmetic;
* Python dict lookup (which raises `KeyError` on a missing key) becomes an
  `Option`-valued lookup, and numpy fancy indexing (which raises
  `IndexError` out of bounds, and wraps negative indices) becomes
  `Seg.npGet`;
* a Python function that can raise returns `Option`; `none` is an
  uncaught exception propagating to the caller;
* file-system reads are abstracted by explicit environments (`DetEnv`,
  `Seg.FileStore`) mapping file names to their loaded contents; the side
  effecting writes (`tofile`, `np.save`, `mkdir_or_exist`) are not
  modelled since no claim mentions them.
-/

namespace ScanNet

/-- `osp.join a b` for the relative paths built by the converter. -/
def pathJoin (a b : String) : String := a ++ "/" ++ b

/-! ## Detection taxonomy (`ScanNetData.__init__`) -/

/-- `self.classes`: the fixed ordered list of 18 detection class names. -/
def classes : List String :=
  ["cabinet", "bed", "chair", "sofa", "table", "door", "window",
   "bookshelf", "picture", "counter", "desk", "curtain",
   "refrigerator", "showercurtrain", "toilet", "sink", "bathtub",
   "garbagebin"]

/-- `self.cat2label = {cat: self.classes.index(cat) for cat in self.classes}`:
name → first index of that name in `classes` (Python `list.index`). -/
def cat2label (cat : String) : Option Nat :=
  (classes.enum.find? (fun p => p.2 == cat)).map (fun p => p.1)

/-- `self.label2cat = {self.cat2label[t]: t for t in self.cat2label}`:
the dict inverting `cat2label`; a later entry with the same key would
overwrite an earlier one, hence the lookup scans the entries in reverse. -/
def label2cat (label : Nat) : Option String :=
  ((classes.filterMap (fun t => (cat2label t).map (fun l => (l, t)))).reverse.find?
      (fun p => p.1 == label)).map (fun p => p.2)

/-- `self.cat_ids`: the 18 nyu40 raw category ids used for detection. -/
def cat_ids : List Int :=
  [3, 4, 5, 6, 7, 8, 9, 10, 11, 12, 14, 16, 24, 28, 33, 34, 36, 39]

/-- `self.cat_ids2class = {nyu40id: i for i, nyu40id in enumerate(cat_ids)}`:
raw category id → detection class index; a missing key is a `KeyError`. -/
def cat_ids2class (nyu40id : Int) : Option Nat :=
  ((cat_ids.enum.map (fun p => (p.2, p.1))).reverse.find?
      (fun p => p.1 == nyu40id)).map (fun p => p.2)

/-! ## Detection scene processing (`ScanNetData.get_infos`) -/

/-- Sequential fallible map: the semantics of a Python list comprehension or
loop whose body can raise — the first failure aborts the whole list. -/
def mapOrFail (f : α → Option β) : List α → Option (List β)
  | [] => some []
  | x :: xs =>
    match f x, mapOrFail f xs with
    | some y, some ys => some (y :: ys)
    | _, _ => none

/-- One row of a scene's `{idx}_bbox.npy` array: 6 box parameters plus the
raw class id (the source comment `# k, 6 + class`).  Box parameters are
idealised as integers; no claim computes with their values. -/
structure BoxRow where
  c0 : Int
  c1 : Int
  c2 : Int
  c3 : Int
  c4 : Int
  c5 : Int
  cls : Int
deriving DecidableEq, Repr

/-- `boxes_with_classes[i, :-1]`: the 6 box parameters of a row. -/
def BoxRow.params (r : BoxRow) : List Int := [r.c0, r.c1, r.c2, r.c3, r.c4, r.c5]

/-- The `annotations` dict built by `process_single_scene`.  `gt_num` is
always set; each array key is `some` exactly when the source assigns it. -/
structure AnnotationBlock where
  gt_num : Nat
  name : Option (List String)
  location : Option (List (List Int))
  dimensions : Option (List (List Int))
  gt_boxes_upright_depth : Option (List (List Int))
  index : Option (List Nat)
  cls : Option (List Nat)
deriving DecidableEq, Repr

/-- The `if has_label:` block of `process_single_scene`, given the loaded
`boxes_with_classes` rows.  A raw class id missing from `cat_ids2class` is a
`KeyError` (`none`); the whole block then produces no annotation dict. -/
def buildAnnotationBlock (boxes : List BoxRow) : Option AnnotationBlock :=
  let gt_num := boxes.length
  if gt_num = 0 then
    some ⟨0, none, none, none, none, none, none⟩
  else do
    let name ← mapOrFail (fun r => (cat_ids2class r.cls).bind label2cat) boxes
    let cls ← mapOrFail (fun r => cat_ids2class r.cls) boxes
    some { gt_num := gt_num
           name := some name
           location := some (boxes.map (fun r => [r.c0, r.c1, r.c2]))
           dimensions := some (boxes.map (fun r => [r.c3, r.c4, r.c5]))
           gt_boxes_upright_depth := some (boxes.map BoxRow.params)
           index := some (List.range gt_num)
           cls := some cls }

/-- The `info` dict returned by `process_single_scene`. -/
structure InfoRecord where
  num_features : Nat
  lidar_idx : String
  pts_path : String
  pts_instance_mask_path : String
  pts_semantic_mask_path : String
  annos : Option AnnotationBlock
deriving DecidableEq, Repr

/-- The raw per-scene files read by `ScanNetData`: `boxesOf idx` is the
content of `scannet_train_instance_data/{idx}_bbox.npy`. -/
structure DetEnv where
  boxesOf : String → List BoxRow

/-- `process_single_scene(sample_idx)`: builds the info record for one scene;
`none` models an exception escaping (an unmapped raw class id).  The binary
file writes are side effects not modelled. -/
def process_single_scene (env : DetEnv) (has_label : Bool) (sample_idx : String) :
    Option InfoRecord :=
  let base : Option AnnotationBlock → InfoRecord := fun annos =>
    { num_features := 6
      lidar_idx := sample_idx
      pts_path := pathJoin "points" (sample_idx ++ ".bin")
      pts_instance_mask_path := pathJoin "instance_mask" (sample_idx ++ ".bin")
      pts_semantic_mask_path := pathJoin "semantic_mask" (sample_idx ++ ".bin")
      annos := annos }
  if has_label then
    (buildAnnotationBlock (env.boxesOf sample_idx)).map (fun a => base (some a))
  else
    some (base none)

/-- The `ScanNetData` state the claims need: the split's scene-id list loaded
by `__init__` from `meta_data/scannetv2_{split}.txt`. -/
structure ScanNetData where
  sample_id_list : List String

/-- `ScanNetData.get_infos(num_workers, has_label, sample_id_list)`: maps
`process_single_scene` over the chosen id list.  `ThreadPoolExecutor.map`
preserves input order and re-raises a worker's exception when `list(infos)`
is taken, so `num_workers` does not affect the result value. -/
def ScanNetData.get_infos (self : ScanNetData) (env : DetEnv)
    (num_workers : Nat) (has_label : Bool)
    (sample_id_list : Option (List String)) : Option (List InfoRecord) :=
  let _ := num_workers
  let ids := sample_id_list.getD self.sample_id_list
  mapOrFail (process_single_scene env has_label) ids

/-! ## Segmentation taxonomy and resampling (`ScanNetSegData`) -/

namespace Seg

/-- `self.all_ids = np.arange(41)`: all possible nyu-style raw ids. -/
def all_ids : List Nat := List.range 41

/-- `self.cat_ids`: the 20 raw category ids used for the seg task. -/
def cat_ids : List Nat :=
  [1, 2, 3, 4, 5, 6, 7, 8, 9, 10, 11, 12, 14, 16, 24, 28, 33, 34, 36, 39]

/-- `self.ignore_index = len(self.cat_ids)`. -/
def ignore_index : Nat := cat_ids.length

/-- `self.cat_id2class`: the 41-entry remap array, initialised everywhere to
`ignore_index` (`np.ones * ignore_index`) and then overwritten at each
table id with its position (`for i, cat_id in enumerate(cat_ids): ...`). -/
def cat_id2class : List Nat :=
  cat_ids.enum.foldl (fun arr p => arr.set p.2 p.1)
    (List.replicate all_ids.length ignore_index)

/-- numpy integer indexing of a 1-d array: a negative index wraps once from
the end; anything outside `[-len, len)` is an `IndexError` (`none`). -/
def npGet (arr : List Nat) (i : Int) : Option Nat :=
  if i < -(arr.length : Int) then none
  else if i < 0 then arr.get? (i + (arr.length : Int)).toNat
  else arr.get? i.toNat

/-- The loaded contents of the mask files `_convert_to_label` can be handed:
`npyLoad name` is `np.load(name)`, `fromFile name` is
`np.fromfile(name, dtype=np.long)`. -/
structure FileStore where
  npyLoad : String → List Int
  fromFile : String → List Int

/-- A `FileStore` with empty files, for concrete instantiations. -/
def emptyStore : FileStore := ⟨fun _ => [], fun _ => []⟩

/-- A `FileStore` fixture holding two small flat-binary masks, for concrete
instantiations. -/
def sampleStore : FileStore :=
  ⟨fun _ => [], fun name => if name = "root/a.bin" then [1] else [1, 1]⟩

/-- Python `s.endswith(p)`: the last `len(p)` characters of `s` are `p`
(when `p` is longer than `s` the lists differ in length, hence `false`).
Modelled on the character lists so that it evaluates in the kernel. -/
def strEndsWith (s p : String) : Bool :=
  s.data.drop (s.data.length - p.data.length) == p.data

/-- The `mask` argument of `_convert_to_label`: either an already-loaded
array or a file name (`isinstance(mask, str)`). -/
inductive MaskInput where
  | arr : List Int → MaskInput
  | file : String → MaskInput

/-- The loading step of `_convert_to_label`: a string ending in `npy` is
loaded as a structured array, any other string is read as flat binary; an
array input is used as is. -/
def loadMaskData (fs : FileStore) : MaskInput → List Int
  | .arr m => m
  | .file name =>
    if strEndsWith name "npy" then fs.npyLoad name else fs.fromFile name

/-- `ScanNetSegData._convert_to_label(mask)`: load if given a name, drop the
unannotated id 0, then index `cat_id2class` with every remaining raw id
(`none` = the numpy `IndexError` for an id outside the 41-entry array). -/
def convert_to_label (fs : FileStore) (mask : MaskInput) : Option (List Nat) :=
  let m := loadMaskData fs mask
  mapOrFail (npGet cat_id2class) (m.filter (fun id => id ≠ 0))

/-- The raw-id remapping as the spec words it: an id in the 20-entry table
goes to its position, and any other id to the ignore bucket.  Stated only
for comparison with the behaviour of `convert_to_label`. -/
def specRemap (id : Int) : Nat :=
  match cat_ids.enum.find? (fun p => ((p.2 : Nat) : Int) == id) with
  | some p => p.1
  | none => ignore_index

/-- One `np.histogram(label, range(num_classes + 2))` call: the count of
each class value `0..20` (every label produced by `convert_to_label` is
at most `ignore_index`, so integer bins capture the histogram exactly). -/
def histCounts (label : List Nat) : List Nat :=
  (List.range (cat_ids.length + 1)).map (fun c => label.count c)

/-- The `label_weight += class_count` accumulation across all scenes,
starting from `np.zeros((num_classes + 1,))`. -/
def accumulatedHist (labels : List (List Nat)) : List Nat :=
  labels.foldl (fun acc l => List.zipWith (· + ·) acc (histCounts l))
    (List.replicate (cat_ids.length + 1) 0)

/-- Python 3 `round` to an integer: round half to even (numpy float64 is a
subclass of Python `float`, so `round(sample_prob[idx] * num_iter)` uses
`float.__round__`), idealised over exact rationals. -/
def pyRound (q : ℚ) : ℤ :=
  if q - ⌊q⌋ < 1 / 2 then ⌊q⌋
  else if 1 / 2 < q - ⌊q⌋ then ⌊q⌋ + 1
  else if ⌊q⌋ % 2 = 0 then ⌊q⌋ else ⌊q⌋ + 1

/-- `num_iter = int(np.sum(num_point_all) / float(self.num_points))`: the
quotient is non-negative, so `int` truncation is the floor. -/
def numIter (counts : List Nat) (num_points : Nat) : ℤ :=
  ⌊(counts.sum : ℚ) / (num_points : ℚ)⌋

/-- `sample_prob[idx]`: the scene's share of the split's points. -/
def sampleProb (counts : List Nat) (idx : Nat) : ℚ :=
  (counts.getD idx 0 : ℚ) / (counts.sum : ℚ)

/-- The `scene_idxs` loop: for each scene index in order, extend the list
with `round(sample_prob[idx] * num_iter)` copies of the index. -/
def sceneIdxsOf (counts : List Nat) (num_points : Nat) : List Nat :=
  (List.range counts.length).foldl
    (fun acc idx =>
      acc ++ List.replicate
        (pyRound (sampleProb counts idx * (numIter counts num_points : ℚ))).toNat idx)
    []

end Seg

/-- The `ScanNetSegData` state: dataset root, the loaded info records
(reduced to the `pts_semantic_mask_path` each contributes), the per-sample
point count, and the optional custom label-weighting function. -/
structure ScanNetSegData where
  data_root : String
  data_infos : List String
  num_points : Nat
  label_weight_func : Option (ℝ → ℝ)

/-- The weighting function selected by `__init__`:
`(lambda x: 1.0 / np.log(1.2 + x)) if label_weight_func is None else
label_weight_func`. -/
noncomputable def ScanNetSegData.labelWeightFunc (self : ScanNetSegData) : ℝ → ℝ :=
  match self.label_weight_func with
  | none => fun x => 1 / Real.log (1.2 + x)
  | some f => f

/-- `ScanNetSegData.get_scene_idxs_and_label_weight()`: convert every
scene's semantic-mask file to labels (a failure aborts the whole run),
accumulate the 21-bin class histogram and the per-scene point counts, build
the resampling index list, and weight the normalized 20-bin histogram. -/
noncomputable def ScanNetSegData.get_scene_idxs_and_label_weight
    (self : ScanNetSegData) (fs : Seg.FileStore) :
    Option (List Nat × List ℝ) := do
  let labels ← mapOrFail
    (fun p => Seg.convert_to_label fs (.file (pathJoin self.data_root p)))
    self.data_infos
  let num_point_all := labels.map List.length
  let label_weight := Seg.accumulatedHist labels
  let scene_idxs := Seg.sceneIdxsOf num_point_all self.num_points
  let lw := label_weight.dropLast
  some (scene_idxs,
    lw.map (fun (c : ℕ) => self.labelWeightFunc ((c : ℝ) / (lw.sum : ℝ))))

/-! ## Sanity examples -/

example : (cat_ids2class 6).bind label2cat = some "sofa" := by decide

example :
    buildAnnotationBlock [⟨1, 2, 3, 4, 5, 6, 3⟩] =
      some ⟨1, some ["cabinet"], some [[1, 2, 3]], some [[4, 5, 6]],
        some [[1, 2, 3, 4, 5, 6]], some [0], some [0]⟩ := by decide

example : buildAnnotationBlock [⟨1, 2, 3, 4, 5, 6, 13⟩] = none := by decide

example :
    Seg.convert_to_label Seg.emptyStore (.arr [0, 3, 40, 1]) = some [2, 20, 0] := by
  decide

example : Seg.strEndsWith "scene0000_00_sem_label.npy" "npy" = true := by decide
example : Seg.strEndsWith "scene0000_00_sem_label.bin" "npy" = false := by decide
example : Seg.strEndsWith "np" "npy" = false := by decide

example : Seg.pyRound (5 / 2) = 2 := by norm_num [Seg.pyRound]
example : Seg.pyRound (7 / 2) = 4 := by norm_num [Seg.pyRound]
example : Seg.pyRound (13 / 10) = 1 := by norm_num [Seg.pyRound]

/-! ## Properties of `mapOrFail` -/

theorem mapOrFail_none_of_mem {f : α → Option β} {l : List α} {x : α}
    (hx : x ∈ l) (hf : f x = none) : mapOrFail f l = none := by
  induction l with
  | nil => cases hx
  | cons a as ih =>
    rcases List.mem_cons.mp hx with h | h
    · subst h
      simp only [mapOrFail, hf]
    · rw [mapOrFail, ih h]
      cases f a <;> rfl

theorem mapOrFail_cons {f : α → Option β} {a : α} {as : List α} {y : β}
    {ys : List β} (ha : f a = some y) (has : mapOrFail f as = some ys) :
    mapOrFail f (a :: as) = some (y :: ys) := by
  simp only [mapOrFail, ha, has]

theorem mapOrFail_some_inv {f : α → Option β} {a : α} {as : List α}
    {l' : List β} (h : mapOrFail f (a :: as) = some l') :
    ∃ y ys, f a = some y ∧ mapOrFail f as = some ys ∧ l' = y :: ys := by
  rcases hfa : f a with _ | y
  · rw [mapOrFail, hfa] at h; cases h
  · rcases hfas : mapOrFail f as with _ | ys
    · rw [mapOrFail, hfa, hfas] at h; cases h
    · rw [mapOrFail, hfa, hfas] at h
      exact ⟨y, ys, rfl, rfl, (Option.some_injective _ h).symm⟩

theorem mapOrFail_length {f : α → Option β} {l : List α} {l' : List β}
    (h : mapOrFail f l = some l') : l'.length = l.length := by
  induction l generalizing l' with
  | nil =>
    rw [mapOrFail] at h
    cases h
    rfl
  | cons a as ih =>
    rcases mapOrFail_some_inv h with ⟨y, ys, _, hys, rfl⟩
    simp [ih hys]

theorem mapOrFail_get {f : α → Option β} {l : List α} {l' : List β}
    (h : mapOrFail f l = some l') :
    ∀ i (hi : i < l.length) (hi' : i < l'.length),
      f (l.get ⟨i, hi⟩) = some (l'.get ⟨i, hi'⟩) := by
  induction l generalizing l' with
  | nil => intro i hi; cases hi
  | cons a as ih =>
    rcases mapOrFail_some_inv h with ⟨y, ys, hy, hys, rfl⟩
    intro i hi hi'
    cases i with
    | zero => simpa using hy
    | succ n => exact ih hys n (Nat.lt_of_succ_lt_succ hi) (Nat.lt_of_succ_lt_succ hi')

theorem mapOrFail_eq_map {f : α → Option β} {g : α → β} {l : List α}
    (h : ∀ x ∈ l, f x = some (g x)) : mapOrFail f l = some (l.map g) := by
  induction l with
  | nil => rfl
  | cons a as ih =>
    exact mapOrFail_cons (h a (List.mem_cons_self a as))
      (ih fun x hx => h x (List.mem_cons_of_mem a hx))

/-! ## Detection claims -/

/-- **C8** — For every raw category id in the detection id table, remapping it
through `cat_ids2class` and then `label2cat` yields exactly the class name at
the same position in the ordered 18-name class list: the id at position `i`
maps to class index `i`, which maps to the `i`-th name. -/
theorem det_taxonomy_round_trip :
    ∀ i : Fin cat_ids.length,
      cat_ids2class (cat_ids.get i) = some i.val ∧
      (cat_ids2class (cat_ids.get i)).bind label2cat = classes.get? i.val := by
  decide

/-- **C1** — With labels requested, a box whose raw class id is not a key of
the 18-entry `cat_ids2class` table makes the annotation construction for that
scene fail (KeyError), the failure propagates to the caller of `get_infos`,
and no annotation block — partial or otherwise — is produced for the scene. -/
theorem unmapped_id_fatal (boxes : List BoxRow) (r : BoxRow)
    (self : ScanNetData) (env : DetEnv) (num_workers : Nat)
    (ids : List String) (idx : String)
    (hr : r ∈ boxes) (hcls : cat_ids2class r.cls = none)
    (hidx : idx ∈ ids) (hb : env.boxesOf idx = boxes) :
    buildAnnotationBlock boxes = none ∧
    process_single_scene env true idx = none ∧
    self.get_infos env num_workers true (some ids) = none := by
  have hne : boxes.length ≠ 0 :=
    Nat.pos_iff_ne_zero.mp (List.length_pos.mpr (List.ne_nil_of_mem hr))
  have h1 : buildAnnotationBlock boxes = none := by
    have hname : mapOrFail (fun b => (cat_ids2class b.cls).bind label2cat) boxes = none :=
      mapOrFail_none_of_mem hr (by rw [hcls]; rfl)
    rw [buildAnnotationBlock]
    simp only [hne, if_false, hname]
    rfl
  have h2 : process_single_scene env true idx = none := by
    rw [process_single_scene]
    simp only [if_true, hb, h1, Option.map_none']
  refine ⟨h1, h2, ?_⟩
  rw [ScanNetData.get_infos]
  exact mapOrFail_none_of_mem hidx h2

/-- Witness for C1 at a concrete scene: raw class id 13 is not in the
detection table, so annotation building and `get_infos` both fail. -/
theorem unmapped_id_fatal_witness :
    buildAnnotationBlock [⟨0, 0, 0, 0, 0, 0, 13⟩] = none ∧
    ScanNetData.get_infos ⟨[]⟩ ⟨fun _ => [⟨0, 0, 0, 0, 0, 0, 13⟩]⟩ 4 true
      (some ["scene0000_00"]) = none := by
  have h := unmapped_id_fatal [⟨0, 0, 0, 0, 0, 0, 13⟩] ⟨0, 0, 0, 0, 0, 0, 13⟩
    ⟨[]⟩ ⟨fun _ => [⟨0, 0, 0, 0, 0, 0, 13⟩]⟩ 4 ["scene0000_00"] "scene0000_00"
    (by decide) (by decide) (by decide) rfl
  exact ⟨h.1, h.2.2⟩

/-- **C6** — For a scene with `K > 0` boxes, the annotation block's seven
fields are all populated: `name`/`class` have length `K`, `location` is the
first 3 parameters of each row, `dimensions` the last 3,
`gt_boxes_upright_depth` all 6 (each therefore of length `K`), and `index`
is exactly `[0, 1, ..., K-1]`. -/
theorem annotation_block_arrays (boxes : List BoxRow) (a : AnnotationBlock)
    (hne : boxes ≠ []) (h : buildAnnotationBlock boxes = some a) :
    a.gt_num = boxes.length ∧
    (∃ name, a.name = some name ∧ name.length = boxes.length) ∧
    (∃ cls, a.cls = some cls ∧ cls.length = boxes.length) ∧
    a.location = some (boxes.map (fun r => [r.c0, r.c1, r.c2])) ∧
    a.dimensions = some (boxes.map (fun r => [r.c3, r.c4, r.c5])) ∧
    a.gt_boxes_upright_depth = some (boxes.map BoxRow.params) ∧
    (∀ l, a.location = some l → l.length = boxes.length) ∧
    (∀ l, a.dimensions = some l → l.length = boxes.length) ∧
    (∀ l, a.gt_boxes_upright_depth = some l → l.length = boxes.length) ∧
    a.index = some (List.range boxes.length) ∧
    (∀ l, a.index = some l → l.length = boxes.length) := by
  have hlen : boxes.length ≠ 0 :=
    Nat.pos_iff_ne_zero.mp (List.length_pos.mpr hne)
  rw [buildAnnotationBlock] at h
  simp only [hlen, if_false] at h
  rcases hname : mapOrFail (fun r => (cat_ids2class r.cls).bind label2cat) boxes with
    _ | name
  · rw [hname] at h; cases h
  rcases hcls : mapOrFail (fun r => cat_ids2class r.cls) boxes with _ | cls
  · rw [hname, hcls] at h; cases h
  rw [hname, hcls] at h
  have ha : a = { gt_num := boxes.length
                  name := some name
                  location := some (boxes.map (fun r => [r.c0, r.c1, r.c2]))
                  dimensions := some (boxes.map (fun r => [r.c3, r.c4, r.c5]))
                  gt_boxes_upright_depth := some (boxes.map BoxRow.params)
                  index := some (List.range boxes.length)
                  cls := some cls } := (Option.some_injective _ h).symm
  subst ha
  refine ⟨rfl, ⟨name, rfl, mapOrFail_length hname⟩,
    ⟨cls, rfl, mapOrFail_length hcls⟩, rfl, rfl, rfl, ?_, ?_, ?_, rfl, ?_⟩
  · intro l hl
    cases hl
    simp
  · intro l hl
    cases hl
    simp
  · intro l hl
    cases hl
    simp
  · intro l hl
    cases hl
    simp

/-- Witness for C6 at a concrete two-box scene. -/
theorem annotation_block_arrays_witness :
    buildAnnotationBlock [⟨1, 2, 3, 4, 5, 6, 3⟩, ⟨7, 8, 9, 10, 11, 12, 4⟩] =
      some ⟨2, some ["cabinet", "bed"], some [[1, 2, 3], [7, 8, 9]],
        some [[4, 5, 6], [10, 11, 12]],
        some [[1, 2, 3, 4, 5, 6], [7, 8, 9, 10, 11, 12]],
        some [0, 1], some [0, 1]⟩ ∧
    (⟨2, some ["cabinet", "bed"], some [[1, 2, 3], [7, 8, 9]],
        some [[4, 5, 6], [10, 11, 12]],
        some [[1, 2, 3, 4, 5, 6], [7, 8, 9, 10, 11, 12]],
        some [0, 1], some [0, 1]⟩ : AnnotationBlock).gt_num = 2 ∧
    (⟨2, some ["cabinet", "bed"], some [[1, 2, 3], [7, 8, 9]],
        some [[4, 5, 6], [10, 11, 12]],
        some [[1, 2, 3, 4, 5, 6], [7, 8, 9, 10, 11, 12]],
        some [0, 1], some [0, 1]⟩ : AnnotationBlock).index =
      some (List.range 2) := by
  refine ⟨by decide, ?_, ?_⟩
  · exact (annotation_block_arrays [⟨1, 2, 3, 4, 5, 6, 3⟩, ⟨7, 8, 9, 10, 11, 12, 4⟩]
      ⟨2, some ["cabinet", "bed"], some [[1, 2, 3], [7, 8, 9]],
        some [[4, 5, 6], [10, 11, 12]],
        some [[1, 2, 3, 4, 5, 6], [7, 8, 9, 10, 11, 12]],
        some [0, 1], some [0, 1]⟩ (by decide) (by decide)).1
  · exact (annotation_block_arrays [⟨1, 2, 3, 4, 5, 6, 3⟩, ⟨7, 8, 9, 10, 11, 12, 4⟩]
      ⟨2, some ["cabinet", "bed"], some [[1, 2, 3], [7, 8, 9]],
        some [[4, 5, 6], [10, 11, 12]],
        some [[1, 2, 3, 4, 5, 6], [7, 8, 9, 10, 11, 12]],
        some [0, 1], some [0, 1]⟩ (by decide) (by decide)).2.2.2.2.2.2.2.2.2.1

/-- Whenever `process_single_scene` succeeds, the record's `lidar_idx` is the
processed sample id. -/
theorem process_single_scene_lidar_idx {env : DetEnv} {hl : Bool} {s : String}
    {info : InfoRecord} (h : process_single_scene env hl s = some info) :
    info.lidar_idx = s := by
  rw [process_single_scene] at h
  cases hl with
  | false =>
    simp only [Bool.false_eq_true, if_false] at h
    cases h
    rfl
  | true =>
    simp only [if_true] at h
    rcases hb : buildAnnotationBlock (env.boxesOf s) with _ | a
    · rw [hb] at h; cases h
    · rw [hb] at h
      cases (Option.some_injective _ h).symm
      rfl

/-- **C7** — For a scene whose box array is empty, the annotation block still
exists in the emitted info record and holds only `gt_num = 0`: none of the
name/location/dimensions/box/index/class keys is present. -/
theorem empty_scene_annotation_block (env : DetEnv) (idx : String)
    (h : env.boxesOf idx = []) :
    buildAnnotationBlock (env.boxesOf idx) =
      some ⟨0, none, none, none, none, none, none⟩ ∧
    ∃ info, process_single_scene env true idx = some info ∧
      info.annos = some ⟨0, none, none, none, none, none, none⟩ := by
  have h1 : buildAnnotationBlock (env.boxesOf idx) =
      some ⟨0, none, none, none, none, none, none⟩ := by
    rw [h]
    rfl
  refine ⟨h1, ⟨⟨6, idx, pathJoin "points" (idx ++ ".bin"),
    pathJoin "instance_mask" (idx ++ ".bin"),
    pathJoin "semantic_mask" (idx ++ ".bin"),
    some ⟨0, none, none, none, none, none, none⟩⟩, ?_, rfl⟩⟩
  rw [process_single_scene]
  simp only [if_true, h1, Option.map_some']

/-- Witness for C7 at a concrete empty-box scene. -/
theorem empty_scene_annotation_block_witness :
    buildAnnotationBlock ((⟨fun _ => []⟩ : DetEnv).boxesOf "scene0001_00") =
      some ⟨0, none, none, none, none, none, none⟩ ∧
    ∃ info,
      process_single_scene ⟨fun _ => []⟩ true "scene0001_00" = some info ∧
      info.annos = some ⟨0, none, none, none, none, none, none⟩ :=
  empty_scene_annotation_block ⟨fun _ => []⟩ "scene0001_00" rfl

/-- **C9** — `get_infos` returns exactly one info record per requested sample
id (the explicit list when given, otherwise the constructor-loaded split
list), in the same order, and the `i`-th record's `lidar_idx` is the `i`-th
id. -/
theorem get_infos_ordered (self : ScanNetData) (env : DetEnv)
    (num_workers : Nat) (has_label : Bool) (sil : Option (List String))
    (infos : List InfoRecord)
    (h : self.get_infos env num_workers has_label sil = some infos) :
    infos.length = (sil.getD self.sample_id_list).length ∧
    ∀ i (hi : i < infos.length) (hi' : i < (sil.getD self.sample_id_list).length),
      (infos.get ⟨i, hi⟩).lidar_idx = (sil.getD self.sample_id_list).get ⟨i, hi'⟩ := by
  rw [ScanNetData.get_infos] at h
  refine ⟨mapOrFail_length h, fun i hi hi' => ?_⟩
  exact process_single_scene_lidar_idx (mapOrFail_get h i hi' hi)

/-- Witness for C9: a two-scene split processed without labels yields two
records carrying the two ids in order. -/
theorem get_infos_ordered_witness :
    ScanNetData.get_infos ⟨["scene0000_00", "scene0001_00"]⟩ ⟨fun _ => []⟩ 4
        false none =
      some [⟨6, "scene0000_00", "points/scene0000_00.bin",
              "instance_mask/scene0000_00.bin",
              "semantic_mask/scene0000_00.bin", none⟩,
            ⟨6, "scene0001_00", "points/scene0001_00.bin",
              "instance_mask/scene0001_00.bin",
              "semantic_mask/scene0001_00.bin", none⟩] ∧
    ([⟨6, "scene0000_00", "points/scene0000_00.bin",
        "instance_mask/scene0000_00.bin",
        "semantic_mask/scene0000_00.bin", none⟩,
      ⟨6, "scene0001_00", "points/scene0001_00.bin",
        "instance_mask/scene0001_00.bin",
        "semantic_mask/scene0001_00.bin", none⟩] : List InfoRecord).length =
      ((none : Option (List String)).getD ["scene0000_00", "scene0001_00"]).length := by
  have hrun : ScanNetData.get_infos ⟨["scene0000_00", "scene0001_00"]⟩
      ⟨fun _ => []⟩ 4 false none =
      some [⟨6, "scene0000_00", "points/scene0000_00.bin",
              "instance_mask/scene0000_00.bin",
              "semantic_mask/scene0000_00.bin", none⟩,
            ⟨6, "scene0001_00", "points/scene0001_00.bin",
              "instance_mask/scene0001_00.bin",
              "semantic_mask/scene0001_00.bin", none⟩] := by decide
  exact ⟨hrun,
    (get_infos_ordered ⟨["scene0000_00", "scene0001_00"]⟩ ⟨fun _ => []⟩ 4 false
      none _ hrun).1⟩

/-! ## Properties of the resampling computation -/

theorem foldl_append_eq_flatMap (f : α → List β) :
    ∀ (l : List α) (init : List β),
      l.foldl (fun acc x => acc ++ f x) init = init ++ l.flatMap f
  | [], init => by simp
  | a :: as, init => by
    rw [List.foldl_cons, foldl_append_eq_flatMap f as (init ++ f a),
      List.flatMap_cons, List.append_assoc]

/-- The `scene_idxs` loop unrolled: a block of `round(prob * num_iter)`
copies of each scene index, in index order. -/
theorem sceneIdxsOf_eq_flatMap (counts : List Nat) (np : Nat) :
    Seg.sceneIdxsOf counts np =
      (List.range counts.length).flatMap (fun idx =>
        List.replicate
          (Seg.pyRound (Seg.sampleProb counts idx *
            (Seg.numIter counts np : ℚ))).toNat idx) := by
  rw [Seg.sceneIdxsOf, foldl_append_eq_flatMap, List.nil_append]

theorem sum_range_single (c : Nat → Nat) (i : Nat) :
    ∀ m, ((List.range m).map (fun idx => if idx = i then c idx else 0)).sum
      = if i < m then c i else 0 := by
  intro m
  induction m with
  | zero => simp
  | succ n ih =>
    rw [List.range_succ, List.map_append, List.sum_append, ih]
    by_cases h : i < n
    · have hne : n ≠ i := by omega
      have h' : i < n + 1 := by omega
      simp [h, hne, h']
    · by_cases h2 : i = n
      · subst h2
        simp [h]
      · have h3 : ¬ i < n + 1 := by omega
        have hne : n ≠ i := fun hc => h2 hc.symm
        simp [h, h3, hne]

/-- How often scene index `i` occurs in the resampling list. -/
theorem sceneIdxsOf_count (counts : List Nat) (np : Nat) (i : Nat)
    (hi : i < counts.length) :
    (Seg.sceneIdxsOf counts np).count i =
      (Seg.pyRound (Seg.sampleProb counts i *
        (Seg.numIter counts np : ℚ))).toNat := by
  rw [sceneIdxsOf_eq_flatMap, List.count_flatMap]
  have hmap : List.map
      (List.count i ∘ fun idx =>
        List.replicate
          (Seg.pyRound (Seg.sampleProb counts idx *
            (Seg.numIter counts np : ℚ))).toNat idx)
      (List.range counts.length)
    = List.map
        (fun idx => if idx = i then
          (Seg.pyRound (Seg.sampleProb counts idx *
            (Seg.numIter counts np : ℚ))).toNat else 0)
        (List.range counts.length) := by
    apply List.map_congr_left
    intro x _
    simp only [Function.comp_apply, List.count_replicate]
    by_cases h : x = i <;> simp [h]
  rw [hmap, sum_range_single]
  simp [hi]

theorem mem_flatMap_replicate {c : Nat → Nat} {m x : Nat}
    (hx : x ∈ (List.range m).flatMap (fun idx => List.replicate (c idx) idx)) :
    x < m := by
  rcases List.mem_flatMap.mp hx with ⟨idx, hidx, hrep⟩
  rw [List.eq_of_mem_replicate hrep]
  exact List.mem_range.mp hidx

/-- Every entry of the resampling list is a valid scene index. -/
theorem sceneIdxsOf_mem {counts : List Nat} {np x : Nat}
    (hx : x ∈ Seg.sceneIdxsOf counts np) : x < counts.length := by
  rw [sceneIdxsOf_eq_flatMap] at hx
  exact mem_flatMap_replicate hx

theorem sorted_flatMap_replicate (c : Nat → Nat) :
    ∀ m, List.Sorted (· ≤ ·)
      ((List.range m).flatMap (fun idx => List.replicate (c idx) idx))
  | 0 => by simp [List.Sorted]
  | m + 1 => by
    rw [List.range_succ, List.flatMap_append]
    refine List.pairwise_append.mpr ⟨sorted_flatMap_replicate c m, ?_, ?_⟩
    · simp only [List.flatMap_cons, List.flatMap_nil, List.append_nil]
      exact List.pairwise_replicate.mpr (Or.inr (le_refl m))
    · intro x hx y hy
      simp only [List.flatMap_cons, List.flatMap_nil, List.append_nil] at hy
      rw [List.eq_of_mem_replicate hy]
      exact Nat.le_of_lt (mem_flatMap_replicate hx)

/-- The resampling list is nondecreasing. -/
theorem sceneIdxsOf_sorted (counts : List Nat) (np : Nat) :
    List.Sorted (· ≤ ·) (Seg.sceneIdxsOf counts np) := by
  rw [sceneIdxsOf_eq_flatMap]
  exact sorted_flatMap_replicate _ _

/-- `int(np.sum(...) / float(num_points))` is natural-number floor
division of the total point count. -/
theorem numIter_eq_div (counts : List Nat) (np : Nat) :
    Seg.numIter counts np = ((counts.sum / np : Nat) : ℤ) := by
  rw [Seg.numIter,
    show ((counts.sum : ℚ)) = (((counts.sum : ℕ) : ℤ) : ℚ) from
      (Int.cast_natCast _).symm,
    Rat.floor_intCast_div_natCast (counts.sum : ℤ) np]
  rfl

theorem zipWith_add_getD (a b : List Nat) (i : Nat) (ha : i < a.length)
    (hb : i < b.length) :
    (List.zipWith (· + ·) a b).getD i 0 = a.getD i 0 + b.getD i 0 := by
  have hlen : i < (List.zipWith (· + ·) a b).length := by
    rw [List.length_zipWith]
    omega
  rw [List.getD_eq_getElem _ _ hlen, List.getD_eq_getElem _ _ ha,
    List.getD_eq_getElem _ _ hb, List.getElem_zipWith]

theorem map_range_getD (m : Nat) (f : Nat → Nat) (i : Nat) (hi : i < m) :
    ((List.range m).map f).getD i 0 = f i := by
  have h1 : i < ((List.range m).map f).length := by simp [hi]
  rw [List.getD_eq_getElem _ _ h1, List.getElem_map, List.getElem_range]

theorem list_eq_map_range_getD (l : List Nat) :
    (List.range l.length).map (fun c => l.getD c 0) = l := by
  apply List.ext_getElem
  · simp
  · intro n h1 h2
    simp [List.getD_eq_getElem l 0 h2, List.getElem?_eq_getElem h2]

theorem histCounts_length (l : List Nat) :
    (Seg.histCounts l).length = Seg.cat_ids.length + 1 := by
  simp [Seg.histCounts]

theorem histCounts_getD (l : List Nat) (i : Nat)
    (hi : i < Seg.cat_ids.length + 1) :
    (Seg.histCounts l).getD i 0 = l.count i := by
  rw [Seg.histCounts]
  exact map_range_getD _ _ _ hi

theorem accumHist_aux (labels : List (List Nat)) :
    ∀ acc : List Nat, acc.length = Seg.cat_ids.length + 1 →
      labels.foldl (fun a l => List.zipWith (· + ·) a (Seg.histCounts l)) acc =
        (List.range (Seg.cat_ids.length + 1)).map
          (fun c => acc.getD c 0 + (labels.map (fun l => l.count c)).sum) := by
  induction labels with
  | nil =>
    intro acc hacc
    simp only [List.foldl_nil, List.map_nil, List.sum_nil, Nat.add_zero]
    rw [← hacc]
    exact (list_eq_map_range_getD acc).symm
  | cons l ls ih =>
    intro acc hacc
    rw [List.foldl_cons]
    have hlen : (List.zipWith (· + ·) acc (Seg.histCounts l)).length =
        Seg.cat_ids.length + 1 := by
      rw [List.length_zipWith, hacc, histCounts_length]
      simp
    rw [ih _ hlen]
    apply List.map_congr_left
    intro c hc
    have hc' : c < Seg.cat_ids.length + 1 := List.mem_range.mp hc
    rw [zipWith_add_getD _ _ c (by rw [hacc]; exact hc')
        (by rw [histCounts_length]; exact hc'),
      histCounts_getD _ _ hc']
    simp [Nat.add_assoc]

/-- The accumulated 21-bin histogram is, bin by bin, the total count of each
class value across all scenes. -/
theorem accumulatedHist_eq (labels : List (List Nat)) :
    Seg.accumulatedHist labels =
      (List.range (Seg.cat_ids.length + 1)).map
        (fun c => (labels.map (fun l => l.count c)).sum) := by
  rw [Seg.accumulatedHist, accumHist_aux labels _ (by simp)]
  apply List.map_congr_left
  intro c hc
  have hc' : c < Seg.cat_ids.length + 1 := List.mem_range.mp hc
  rw [List.getD_eq_getElem _ _ (by simpa using hc'), List.getElem_replicate,
    Nat.zero_add]

/-- Dropping the trailing ignore bin leaves the 20 per-class totals. -/
theorem accumulatedHist_dropLast (labels : List (List Nat)) :
    (Seg.accumulatedHist labels).dropLast =
      (List.range Seg.cat_ids.length).map
        (fun c => (labels.map (fun l => l.count c)).sum) := by
  rw [accumulatedHist_eq, List.range_succ, List.map_append, List.map_singleton,
    List.dropLast_concat]

/-- Running `get_scene_idxs_and_label_weight` once all mask conversions
succeed. -/
theorem get_scene_run (self : ScanNetSegData) (fs : Seg.FileStore)
    (labels : List (List Nat))
    (h : mapOrFail
        (fun p => Seg.convert_to_label fs (.file (pathJoin self.data_root p)))
        self.data_infos = some labels) :
    self.get_scene_idxs_and_label_weight fs =
      some (Seg.sceneIdxsOf (labels.map List.length) self.num_points,
        ((Seg.accumulatedHist labels).dropLast).map
          (fun (c : ℕ) => self.labelWeightFunc
            ((c : ℝ) / (((Seg.accumulatedHist labels).dropLast).sum : ℝ)))) := by
  rw [ScanNetSegData.get_scene_idxs_and_label_weight, h]
  rfl

/-! ## Segmentation claims -/

/-- **C10** — After a successful run, the scene-index multiset returned by
`get_scene_idxs_and_label_weight` is nondecreasing (every occurrence of a
scene index precedes every occurrence of any larger index) and every entry
is a valid index into the info-record collection. -/
theorem scene_idxs_sorted_and_bounded (self : ScanNetSegData)
    (fs : Seg.FileStore) (labels : List (List Nat))
    (h : mapOrFail
        (fun p => Seg.convert_to_label fs (.file (pathJoin self.data_root p)))
        self.data_infos = some labels) :
    ∃ w, self.get_scene_idxs_and_label_weight fs =
        some (Seg.sceneIdxsOf (labels.map List.length) self.num_points, w) ∧
      List.Sorted (· ≤ ·)
        (Seg.sceneIdxsOf (labels.map List.length) self.num_points) ∧
      ∀ x ∈ Seg.sceneIdxsOf (labels.map List.length) self.num_points,
        x < self.data_infos.length := by
  refine ⟨_, get_scene_run self fs labels h, sceneIdxsOf_sorted _ _, ?_⟩
  intro x hx
  have hlt := sceneIdxsOf_mem hx
  rw [List.length_map] at hlt
  rw [← mapOrFail_length h]
  exact hlt

/-- Witness for C10: two scenes with 1 and 2 annotated points,
`num_points = 1`. -/
theorem scene_idxs_sorted_and_bounded_witness :
    (mapOrFail
      (fun p => Seg.convert_to_label Seg.sampleStore
        (.file (pathJoin (⟨"root", ["a.bin", "b.bin"], 1, none⟩ :
          ScanNetSegData).data_root p)))
      (⟨"root", ["a.bin", "b.bin"], 1, none⟩ : ScanNetSegData).data_infos =
      some [[0], [0, 0]]) ∧
    (∃ w, (⟨"root", ["a.bin", "b.bin"], 1, none⟩ :
          ScanNetSegData).get_scene_idxs_and_label_weight Seg.sampleStore =
        some (Seg.sceneIdxsOf ([[0], [0, 0]].map List.length) 1, w) ∧
      List.Sorted (· ≤ ·) (Seg.sceneIdxsOf ([[0], [0, 0]].map List.length) 1) ∧
      ∀ x ∈ Seg.sceneIdxsOf ([[0], [0, 0]].map List.length) 1,
        x < (⟨"root", ["a.bin", "b.bin"], 1, none⟩ :
          ScanNetSegData).data_infos.length) :=
  ⟨by decide,
    scene_idxs_sorted_and_bounded ⟨"root", ["a.bin", "b.bin"], 1, none⟩
      Seg.sampleStore [[0], [0, 0]] (by decide)⟩

/-- **C2** — `get_scene_idxs_and_label_weight` computes
`num_iter = ⌊total_points / num_points⌋` and repeats each scene index `i`
exactly `round(sample_prob[i] * num_iter)` times, in index order; for
point counts `[100, 300, 600]` with `num_points = 100`, `num_iter = 10` and
index 2 appears 6 times, index 1 three times, index 0 once. -/
theorem scene_idxs_resampling_counts (self : ScanNetSegData)
    (fs : Seg.FileStore) (labels : List (List Nat))
    (h : mapOrFail
        (fun p => Seg.convert_to_label fs (.file (pathJoin self.data_root p)))
        self.data_infos = some labels)
    (hnp : 0 < self.num_points)
    (htot : 0 < (labels.map List.length).sum) :
    (∃ w, self.get_scene_idxs_and_label_weight fs =
        some (Seg.sceneIdxsOf (labels.map List.length) self.num_points, w)) ∧
    Seg.numIter (labels.map List.length) self.num_points =
      (((labels.map List.length).sum / self.num_points : Nat) : ℤ) ∧
    (∀ i, i < (labels.map List.length).length →
      (Seg.sceneIdxsOf (labels.map List.length) self.num_points).count i =
        (Seg.pyRound (Seg.sampleProb (labels.map List.length) i *
          (Seg.numIter (labels.map List.length) self.num_points : ℚ))).toNat) ∧
    Seg.numIter [100, 300, 600] 100 = 10 ∧
    (Seg.sceneIdxsOf [100, 300, 600] 100).count 2 = 6 ∧
    (Seg.sceneIdxsOf [100, 300, 600] 100).count 1 = 3 ∧
    (Seg.sceneIdxsOf [100, 300, 600] 100).count 0 = 1 := by
  have hni : Seg.numIter [100, 300, 600] 100 = 10 := by
    rw [numIter_eq_div]
    decide
  refine ⟨⟨_, get_scene_run self fs labels h⟩, numIter_eq_div _ _,
    fun i hi => sceneIdxsOf_count _ _ i hi, hni, ?_, ?_, ?_⟩
  · rw [sceneIdxsOf_count _ _ 2 (by decide), hni]
    norm_num [Seg.sampleProb, Seg.pyRound, List.sum_cons, List.sum_nil]
    all_goals decide
  · rw [sceneIdxsOf_count _ _ 1 (by decide), hni]
    norm_num [Seg.sampleProb, Seg.pyRound, List.sum_cons, List.sum_nil]
    all_goals decide
  · rw [sceneIdxsOf_count _ _ 0 (by decide), hni]
    norm_num [Seg.sampleProb, Seg.pyRound, List.sum_cons, List.sum_nil]
    all_goals decide

/-- Witness for C2: a single scene of one annotated point with
`num_points = 1`. -/
theorem scene_idxs_resampling_counts_witness :
    (mapOrFail
      (fun p => Seg.convert_to_label Seg.sampleStore
        (.file (pathJoin (⟨"root", ["a.bin"], 1, none⟩ :
          ScanNetSegData).data_root p)))
      (⟨"root", ["a.bin"], 1, none⟩ : ScanNetSegData).data_infos =
      some [[0]]) ∧
    (0 : Nat) < 1 ∧ (0 : Nat) < ([[0]].map List.length).sum ∧
    Seg.numIter [100, 300, 600] 100 = 10 ∧
    (Seg.sceneIdxsOf [100, 300, 600] 100).count 2 = 6 ∧
    (Seg.sceneIdxsOf [100, 300, 600] 100).count 1 = 3 ∧
    (Seg.sceneIdxsOf [100, 300, 600] 100).count 0 = 1 := by
  have h := scene_idxs_resampling_counts ⟨"root", ["a.bin"], 1, none⟩
    Seg.sampleStore [[0]] (by decide) (by decide) (by decide)
  exact ⟨by decide, by decide, by decide, h.2.2.2.1, h.2.2.2.2.1,
    h.2.2.2.2.2.1, h.2.2.2.2.2.2⟩

/-- **C3** — The per-class weight vector is the accumulated 21-bin histogram
with the ignore bin dropped, normalized by its own sum, passed elementwise
through the label-weighting function — with no custom function supplied,
`w(f) = 1 / log(1.2 + f)` — and has length `N = 20`. -/
theorem label_weight_vector (self : ScanNetSegData) (fs : Seg.FileStore)
    (labels : List (List Nat))
    (h : mapOrFail
        (fun p => Seg.convert_to_label fs (.file (pathJoin self.data_root p)))
        self.data_infos = some labels)
    (hs : 0 < ((Seg.accumulatedHist labels).dropLast).sum)
    (hdef : self.label_weight_func = none) :
    ∃ idxs w, self.get_scene_idxs_and_label_weight fs = some (idxs, w) ∧
      w.length = Seg.cat_ids.length ∧ Seg.cat_ids.length = 20 ∧
      ∀ i, i < Seg.cat_ids.length →
        w.get? i = some (1 / Real.log (1.2 +
          (((labels.map (fun l => l.count i)).sum : ℕ) : ℝ) /
          ((((List.range Seg.cat_ids.length).map
              (fun c => (labels.map (fun l => l.count c)).sum)).sum : ℕ) : ℝ))) := by
  refine ⟨_, _, get_scene_run self fs labels h, ?_, rfl, ?_⟩
  · rw [List.length_map, accumulatedHist_dropLast, List.length_map,
      List.length_range]
  · intro i hi
    rw [accumulatedHist_dropLast, List.get?_map, List.get?_map,
      List.get?_range hi]
    simp only [Option.map_some', ScanNetSegData.labelWeightFunc, hdef]

/-- Witness for C3: one scene holding one point of raw id 1. -/
theorem label_weight_vector_witness :
    (mapOrFail
      (fun p => Seg.convert_to_label Seg.sampleStore
        (.file (pathJoin (⟨"root", ["a.bin"], 8192, none⟩ :
          ScanNetSegData).data_root p)))
      (⟨"root", ["a.bin"], 8192, none⟩ : ScanNetSegData).data_infos =
      some [[0]]) ∧
    (0 : Nat) < ((Seg.accumulatedHist [[0]]).dropLast).sum ∧
    (∃ idxs w, (⟨"root", ["a.bin"], 8192, none⟩ :
          ScanNetSegData).get_scene_idxs_and_label_weight Seg.sampleStore =
        some (idxs, w) ∧
      w.length = Seg.cat_ids.length ∧ Seg.cat_ids.length = 20 ∧
      ∀ i, i < Seg.cat_ids.length →
        w.get? i = some (1 / Real.log (1.2 +
          ((([[0]].map (fun l => l.count i)).sum : ℕ) : ℝ) /
          ((((List.range Seg.cat_ids.length).map
              (fun c => ([[0]].map (fun l => l.count c)).sum)).sum : ℕ) : ℝ)))) :=
  ⟨by decide, by decide,
    label_weight_vector ⟨"root", ["a.bin"], 8192, none⟩ Seg.sampleStore [[0]]
      (by decide) (by decide) rfl⟩

/-- **C4 (counterexample)** — The claim that every raw id outside the
segmentation table, including ids outside 0..40, is mapped to the ignore
index is false: a mask holding id 41 makes `_convert_to_label` raise an
`IndexError` (the remap array has only 41 entries), producing no label
array at all, rather than the claimed `[ignore_index]`. -/
theorem convert_to_label_out_of_range_fails :
    Seg.convert_to_label Seg.emptyStore (.arr [41]) = none ∧
    Seg.convert_to_label Seg.emptyStore (.arr [41]) ≠
      some [Seg.ignore_index] := by decide

/-- **C4 (amended)** — `_convert_to_label` first discards entries with raw
id 0; every remaining raw id *within the 0..40 nyu-style range* is remapped
through the table — out-of-table ids to the ignore index, which equals the
table size 20 — while an id outside the 41-entry array bounds raises an
index error instead (see the counterexample). -/
theorem convert_to_label_in_range (fs : Seg.FileStore) (mask : List Int)
    (h : ∀ id ∈ mask, 0 ≤ id ∧ id ≤ 40) :
    Seg.ignore_index = 20 ∧
    Seg.convert_to_label fs (.arr mask) =
      some ((mask.filter (fun id => id ≠ 0)).map Seg.specRemap) := by
  refine ⟨rfl, ?_⟩
  simp only [Seg.convert_to_label, Seg.loadMaskData]
  apply mapOrFail_eq_map
  intro id hid
  have hmem := List.mem_of_mem_filter hid
  obtain ⟨h0, h40⟩ := h id hmem
  have hfin : ∀ n : Fin 41, Seg.npGet Seg.cat_id2class ((n : Nat) : Int) =
      some (Seg.specRemap ((n : Nat) : Int)) := by decide
  have hid' : id = ((id.toNat : Nat) : Int) := (Int.toNat_of_nonneg h0).symm
  have hlt : id.toNat < 41 := by omega
  rw [hid']
  exact hfin ⟨id.toNat, hlt⟩

/-- Witness for the amended C4: a mask `[0, 22, 39]` — the 0 is discarded,
22 is in range but not in the table (→ ignore, 20), 39 is the last table
entry (→ class 19). -/
theorem convert_to_label_in_range_witness :
    (∀ id ∈ ([0, 22, 39] : List Int), 0 ≤ id ∧ id ≤ 40) ∧
    Seg.ignore_index = 20 ∧
    Seg.convert_to_label Seg.emptyStore (.arr [0, 22, 39]) =
      some ((([0, 22, 39] : List Int).filter (fun id => id ≠ 0)).map
        Seg.specRemap) :=
  ⟨by decide,
    convert_to_label_in_range Seg.emptyStore [0, 22, 39] (by decide)⟩

/-- **C5 (counterexample)** — A semantic-mask filename with an unsupported
extension is *not* a fatal error: `_convert_to_label` reads
`scene0000_00_sem_label.txt` through the flat-binary branch and returns a
label array instead of raising. -/
theorem unsupported_suffix_still_loads :
    Seg.strEndsWith "scene0000_00_sem_label.txt" "npy" = false ∧
    Seg.convert_to_label ⟨fun _ => [3], fun _ => [1]⟩
      (.file "scene0000_00_sem_label.txt") = some [0] := by decide

/-- **C5 (amended)** — `_convert_to_label` dispatches only on whether the
name ends in `npy`: any other name — whatever its extension — is read with
`np.fromfile` and converted like an in-memory array; no unsupported-extension
error exists. -/
theorem mask_suffix_dispatch (fs : Seg.FileStore) (name : String)
    (h : Seg.strEndsWith name "npy" = false) :
    Seg.loadMaskData fs (.file name) = fs.fromFile name ∧
    Seg.convert_to_label fs (.file name) =
      Seg.convert_to_label fs (.arr (fs.fromFile name)) := by
  constructor
  · simp [Seg.loadMaskData, h]
  · simp [Seg.convert_to_label, Seg.loadMaskData, h]

/-- Witness for the amended C5 at a concrete `.bin` name. -/
theorem mask_suffix_dispatch_witness :
    Seg.strEndsWith "scene0000_00.bin" "npy" = false ∧
    Seg.loadMaskData ⟨fun _ => [3], fun _ => [2]⟩ (.file "scene0000_00.bin") =
      Seg.FileStore.fromFile ⟨fun _ => [3], fun _ => [2]⟩ "scene0000_00.bin" ∧
    Seg.convert_to_label ⟨fun _ => [3], fun _ => [2]⟩ (.file "scene0000_00.bin") =
      Seg.convert_to_label ⟨fun _ => [3], fun _ => [2]⟩
        (.arr (Seg.FileStore.fromFile ⟨fun _ => [3], fun _ => [2]⟩
          "scene0000_00.bin")) :=
  ⟨by decide,
    mask_suffix_dispatch ⟨fun _ => [3], fun _ => [2]⟩ "scene0000_00.bin"
      (by decide)⟩

end ScanNet
